import Mathlib

/-!
Shallow embedding of the ML forecasting service of the exchange-rate
repository (`src/ml_service.py`), together with proofs of the spec's
testable properties.

Real-valued quantities of the Python code (floats) are modelled as real
numbers; the per-model bounded random draws (`random.uniform`) are
modelled as explicit streams of values passed in as arguments, with the
documented bounds appearing as hypotheses.  Python's `round(x, n)` rounds
to the nearest multiple of `10^(-n)`; we model it with Mathlib's `round`
(ties away from the midpoint go to `⌊x+1/2⌋`; Python breaks exact ties to
even, but every theorem below only uses the half-ulp error bound and
monotonicity, which hold for either tie rule).
-/

namespace MLService

open Classical

/-- `round(x, n)` of Python: round to the nearest multiple of `10^(-n)`. -/
def roundTo {α : Type} [LinearOrderedField α] [FloorRing α] (x : α) (n : ℕ) : α :=
  ((round (x * 10 ^ n) : ℤ) : α) / 10 ^ n

theorem roundTo_mono {α : Type} [LinearOrderedField α] [FloorRing α]
    {x y : α} (n : ℕ) (h : x ≤ y) : roundTo x n ≤ roundTo y n := by
  unfold roundTo
  have h10 : (0:α) < 10 ^ n := by positivity
  have hr : round (x * 10 ^ n) ≤ round (y * 10 ^ n) := by
    rw [round_eq, round_eq]
    exact Int.floor_mono (by nlinarith)
  rw [div_eq_mul_inv, div_eq_mul_inv]
  exact mul_le_mul_of_nonneg_right (by exact_mod_cast hr) (by positivity)

theorem abs_roundTo_sub {α : Type} [LinearOrderedField α] [FloorRing α]
    (x : α) (n : ℕ) : |roundTo x n - x| ≤ 1 / (2 * 10 ^ n) := by
  unfold roundTo
  have h10 : (0:α) < 10 ^ n := by positivity
  have h := abs_sub_round (x * 10 ^ n)
  have key : |((round (x * 10 ^ n) : ℤ) : α) / 10 ^ n - x|
      = |x * 10 ^ n - ((round (x * 10 ^ n) : ℤ) : α)| / 10 ^ n := by
    rw [abs_sub_comm, ← abs_of_pos h10, ← abs_div]
    congr 1
    field_simp
  rw [key]
  rw [div_le_div_iff₀ h10 (by positivity)]
  calc |x * 10 ^ n - ((round (x * 10 ^ n) : ℤ) : α)| * (2 * 10 ^ n)
      ≤ (1/2) * (2 * 10 ^ n) := by
        apply mul_le_mul_of_nonneg_right h (by positivity)
    _ = 1 * 10 ^ n := by ring

/-- If `x * 10^n` is an integer, `roundTo` leaves `x` unchanged. -/
theorem roundTo_eq_self {α : Type} [LinearOrderedField α] [FloorRing α]
    (x : α) (n : ℕ) (k : ℤ) (h : x * 10 ^ n = (k : α)) : roundTo x n = x := by
  unfold roundTo
  rw [h, round_intCast]
  have h10 : (0:α) < 10 ^ n := by positivity
  field_simp at h ⊢
  linarith [h]

/- ---------------------------------------------------------------------
   Indicator Library (`_calculate_rsi`, `_calculate_ema`, `_calculate_macd`,
   `_calculate_bollinger_position` of `MLForecastingService`)
--------------------------------------------------------------------- -/

/-- Arithmetic mean of a list (`np.mean`); `0` on the empty list. -/
noncomputable def listMean (l : List ℝ) : ℝ := l.sum / l.length

/-- The trailing `n` elements of a list (`xs[-n:]` of numpy/Python). -/
def lastN (l : List ℝ) (n : ℕ) : List ℝ := l.drop (l.length - n)

/-- Successive differences (`np.diff`): element `i` is `l[i+1] - l[i]`. -/
def listDiff (l : List ℝ) : List ℝ := List.zipWith (fun a b => a - b) l.tail l

/-- Population standard deviation (`np.std`). -/
noncomputable def listStd (l : List ℝ) : ℝ :=
  Real.sqrt (listMean (l.map (fun x => (x - listMean l) ^ 2)))

/-- `MLForecastingService._calculate_rsi`. -/
noncomputable def calculate_rsi (prices : List ℝ) (period : ℕ := 14) : ℝ :=
  if prices.length < period + 1 then 50.0
  else
    let deltas := listDiff prices
    let gains := deltas.map (fun d => if d > 0 then d else 0)
    let losses := deltas.map (fun d => if d < 0 then -d else 0)
    let avg_gain := listMean (lastN gains period)
    let avg_loss := listMean (lastN losses period)
    if avg_loss = 0 then 100.0
    else
      let rs := avg_gain / avg_loss
      100 - 100 / (1 + rs)

/-- `MLForecastingService._calculate_ema`.  (For `prices = []` and
`period = 0` Python would raise an IndexError at `prices[0]`; that call
pattern is unreachable — `_calculate_macd` only uses periods 12 and 26 —
and the embedding returns the mean, i.e. `0`, there.) -/
noncomputable def calculate_ema (prices : List ℝ) (period : ℕ) : ℝ :=
  if prices.length < period then listMean prices
  else
    let α := 2 / ((period : ℝ) + 1)
    match prices with
    | [] => listMean prices
    | p :: rest => rest.foldl (fun ema price => α * price + (1 - α) * ema) p

/-- `MLForecastingService._calculate_macd`. -/
noncomputable def calculate_macd (prices : List ℝ) (fast : ℕ := 12) (slow : ℕ := 26) : ℝ :=
  if prices.length < slow then 0.0
  else calculate_ema prices fast - calculate_ema prices slow

/-- Standard deviation of the trailing `period`-window, i.e. the half-width
of the Bollinger band divided by 2 (band width is `4 * bollingerStd`). -/
noncomputable def bollingerStd (prices : List ℝ) (period : ℕ) : ℝ :=
  listStd (lastN prices period)

/-- `MLForecastingService._calculate_bollinger_position`.  (For a window
of length ≥ `period ≥ 1` the list is nonempty, so `prices[-1]` exists; the
`getD` default is unreachable.) -/
noncomputable def calculate_bollinger_position (prices : List ℝ) (period : ℕ := 20) : ℝ :=
  if prices.length < period then 0.5
  else
    let ma := listMean (lastN prices period)
    let std := bollingerStd prices period
    let upper_band := ma + 2 * std
    let lower_band := ma - 2 * std
    let current_price := (prices.getLast?).getD 0
    if upper_band = lower_band then 0.5
    else max 0 (min 1 ((current_price - lower_band) / (upper_band - lower_band)))

/- ---------------------------------------------------------------------
   Data model
--------------------------------------------------------------------- -/

/-- A parsed timestamp: `key` is the instant (giving the total order used
by `sort_values`), the remaining fields are the calendar components read
by the time-based features (`.hour`, `.weekday()`, `.day`). -/
structure Timestamp where
  key : ℤ
  hour : ℕ
  weekday : ℕ
  day : ℕ
deriving DecidableEq

/-- One historical data point (a row of `historical_data`). `volume` is
`none` when the point has no volume column. -/
structure RatePoint where
  timestamp : Timestamp
  rate : ℝ
  volume : Option ℝ

/-- Optional sentiment input of `generate_features`. -/
structure SentimentSummary where
  score : ℝ
  article_count : ℝ

/-- The fixed-key feature dictionary produced by `generate_features` /
`_get_default_features` (key set = `feature_columns` of the service). -/
structure FeatureVector where
  rate_lag_1 : ℝ
  rate_lag_2 : ℝ
  rate_lag_3 : ℝ
  rate_lag_6 : ℝ
  rate_lag_12 : ℝ
  rate_ma_5 : ℝ
  rate_ma_10 : ℝ
  rate_ma_20 : ℝ
  volatility_5 : ℝ
  volatility_10 : ℝ
  rsi : ℝ
  macd : ℝ
  bollinger_position : ℝ
  volume_ma_5 : ℝ
  volume_ma_10 : ℝ
  sentiment_score : ℝ
  news_count : ℝ
  hour_of_day : ℝ
  day_of_week : ℝ
  day_of_month : ℝ

/- ---------------------------------------------------------------------
   Feature Builder (`generate_features`, `_get_default_features`)
--------------------------------------------------------------------- -/

/-- `MLForecastingService._get_default_features`; `now` stands for the
`datetime.utcnow()` the method reads its calendar fields from. -/
noncomputable def get_default_features (now : Timestamp) : FeatureVector where
  rate_lag_1 := 1.0545
  rate_lag_2 := 1.0540
  rate_lag_3 := 1.0535
  rate_lag_6 := 1.0530
  rate_lag_12 := 1.0525
  rate_ma_5 := 1.0540
  rate_ma_10 := 1.0535
  rate_ma_20 := 1.0530
  volatility_5 := 0.01
  volatility_10 := 0.012
  rsi := 50.0
  macd := 0.0
  bollinger_position := 0.5
  volume_ma_5 := 1000000
  volume_ma_10 := 1000000
  sentiment_score := 0.0
  news_count := 10
  hour_of_day := now.hour
  day_of_week := now.weekday
  day_of_month := now.day

/-- Sorting of the dataframe by timestamp (`df.sort_values('timestamp')`),
realized as an insertion sort on the timestamp key. -/
def sortByTimestamp (points : List RatePoint) : List RatePoint :=
  points.foldr insertPoint []
where
  insertPoint (p : RatePoint) : List RatePoint → List RatePoint
    | [] => [p]
    | q :: rest =>
      if p.timestamp.key ≤ q.timestamp.key then p :: q :: rest
      else q :: insertPoint p rest

/-- `rates[-k] if len(rates) > k-1 else 1.0`: the lag features of
`generate_features`. -/
noncomputable def rateLag (rates : List ℝ) (k : ℕ) : ℝ :=
  if rates.length ≥ k then rates.getD (rates.length - k) 1.0 else 1.0

/-- `np.mean(xs[-n:]) if len(xs) >= n else xs[-1]` — the trailing moving
averages of `generate_features`.  (On an empty list Python's `xs[-1]`
would raise; in `generate_features` the list has ≥ 20 elements.) -/
noncomputable def trailingMeanOrLast (xs : List ℝ) (n : ℕ) : ℝ :=
  if xs.length ≥ n then listMean (lastN xs n) else (xs.getLast?).getD 0

/-- `MLForecastingService.generate_features` for a series of length ≥ 20
(the body below the insufficient-data early return). -/
noncomputable def computeFeatures (historical_data : List RatePoint)
    (sentiment_data : Option SentimentSummary) : FeatureVector :=
  let sorted := sortByTimestamp historical_data
  let rates := sorted.map (·.rate)
  let hasVolume := sorted.all (fun p => p.volume.isSome)
  let volumes := sorted.map (fun p => (p.volume).getD 0)
  let last_timestamp := ((sorted.getLast?).map (·.timestamp)).getD ⟨0, 0, 0, 0⟩
  { rate_lag_1 := rateLag rates 1
    rate_lag_2 := rateLag rates 2
    rate_lag_3 := rateLag rates 3
    rate_lag_6 := rateLag rates 6
    rate_lag_12 := rateLag rates 12
    rate_ma_5 := trailingMeanOrLast rates 5
    rate_ma_10 := trailingMeanOrLast rates 10
    rate_ma_20 := trailingMeanOrLast rates 20
    volatility_5 := if rates.length ≥ 5 then listStd (lastN rates 5) else 0.01
    volatility_10 := if rates.length ≥ 10 then listStd (lastN rates 10) else 0.01
    rsi := calculate_rsi rates
    macd := calculate_macd rates
    bollinger_position := calculate_bollinger_position rates
    volume_ma_5 := if hasVolume then trailingMeanOrLast volumes 5 else 1000000
    volume_ma_10 := if hasVolume then trailingMeanOrLast volumes 10 else 1000000
    sentiment_score := match sentiment_data with
      | some s => s.score
      | none => 0.0
    news_count := match sentiment_data with
      | some s => s.article_count
      | none => 10
    hour_of_day := last_timestamp.hour
    day_of_week := last_timestamp.weekday
    day_of_month := last_timestamp.day }

/-- `MLForecastingService.generate_features`.  `now` models the
`datetime.utcnow()` read inside `_get_default_features`. -/
noncomputable def generate_features (historical_data : List RatePoint)
    (sentiment_data : Option SentimentSummary) (now : Timestamp) : FeatureVector :=
  if historical_data.isEmpty || historical_data.length < 20 then
    get_default_features now
  else computeFeatures historical_data sentiment_data

/- ---------------------------------------------------------------------
   Forecast Engine (`predict` and the `_simulate_*_prediction` generators)
--------------------------------------------------------------------- -/

/-- Errors raised by the service.  The source raises
`ValueError(f"Unknown model: {model_name}")` for an unregistered model id;
`keyError` stands for a Python `KeyError` on a missing performance record
(unreachable from the initial state). -/
inductive MLError where
  | unknownModel (model_name : String)
  | keyError (key : String)
deriving DecidableEq

/-- The model names accepted by `predict`
(`['ensemble', 'xgboost', 'random_forest', 'lstm']`). -/
def predictModelNames : List String := ["ensemble", "xgboost", "random_forest", "lstm"]

/-- The values produced by the `random.uniform` calls of one loop
iteration of `predict`: `d1` and `d2` are the draws made inside the
model's `_simulate_*_prediction` helper (in call order; models that draw
only once ignore `d2`), `noise` is the `noise` draw of the loop body. -/
structure Draw where
  d1 : ℝ
  d2 : ℝ
  noise : ℝ

/-- One step record of `predict`'s returned list.  `offset` is the hours
ahead (`timestamp = utcnow + offset hours`); `trend_up` models the
`'up'`/`'down'` string. -/
structure PredStep where
  offset : ℕ
  predicted : ℝ
  confidence : ℝ
  lower_bound : ℝ
  upper_bound : ℝ
  trend_up : Bool
  volatility : ℝ

/-- `MLForecastingService._simulate_trend_prediction`; `momentum_factor`
is the `random.uniform(-0.0005, 0.0005)` draw. -/
noncomputable def simulate_trend_prediction (step : ℕ) (momentum_factor : ℝ) : ℝ :=
  let time_factor := 0.0001 * (step : ℝ)
  let seasonal_factor := 0.001 * Real.sin (2 * Real.pi * (step : ℝ) / 24)
  time_factor + seasonal_factor + momentum_factor

/-- `MLForecastingService._simulate_xgboost_prediction`; `vol_draw` is the
`random.uniform(-0.1, 0.1)` draw and `decay_draw` the
`random.uniform(0.8, 1.2)` draw. -/
noncomputable def simulate_xgboost_prediction (step : ℕ) (features : FeatureVector)
    (vol_draw decay_draw : ℝ) : ℝ :=
  let sentiment_impact := features.sentiment_score * 0.002
  let volatility_impact := features.volatility_5 * vol_draw
  let time_decay := 0.0001 * (step : ℝ) * decay_draw
  sentiment_impact + volatility_impact + time_decay

/-- `MLForecastingService._simulate_rf_prediction`; `time_draw` is the
`random.uniform(0.9, 1.1)` draw. -/
noncomputable def simulate_rf_prediction (step : ℕ) (features : FeatureVector)
    (time_draw : ℝ) : ℝ :=
  let ma_trend := (features.rate_ma_5 - features.rate_ma_20) * 0.1
  let rsi_impact := (features.rsi - 50) / 1000
  let time_factor := 0.0001 * (step : ℝ) * time_draw
  ma_trend + rsi_impact + time_factor

/-- `MLForecastingService._simulate_lstm_prediction`; `noise_draw` is the
inner `random.uniform(-0.001, 0.001)` draw. -/
noncomputable def simulate_lstm_prediction (step : ℕ) (features : FeatureVector)
    (noise_draw : ℝ) : ℝ :=
  let sequence_pattern := 0.001 * Real.sin (2 * Real.pi * (step : ℝ) / 12)
  let momentum := (features.rate_lag_1 - features.rate_lag_3) * 0.5
  sequence_pattern + momentum + noise_draw

/-- The per-model trend contribution of one loop iteration of `predict`
(the `if model_name == ...` chain choosing the generator). -/
noncomputable def stepTrend (model_name : String) (features : FeatureVector)
    (i : ℕ) (d : Draw) : ℝ :=
  if model_name = "ensemble" then simulate_trend_prediction i d.d1
  else if model_name = "xgboost" then simulate_xgboost_prediction i features d.d1 d.d2
  else if model_name = "random_forest" then simulate_rf_prediction i features d.d1
  else simulate_lstm_prediction i features d.d1

/-- The per-model `noise = random.uniform(-b, b)` bound of the loop body
of `predict` (0.002 / 0.003 / 0.004 / 0.005). -/
noncomputable def noiseBound (model_name : String) : ℝ :=
  if model_name = "ensemble" then 0.002
  else if model_name = "xgboost" then 0.003
  else if model_name = "random_forest" then 0.004
  else 0.005

/-- The per-model base confidence constant of the loop body of `predict`
(0.85 / 0.80 / 0.75 / 0.70). -/
noncomputable def base_confidence (model_name : String) : ℝ :=
  if model_name = "ensemble" then 0.85
  else if model_name = "xgboost" then 0.80
  else if model_name = "random_forest" then 0.75
  else 0.70

/-- One loop iteration of `predict`: given the rolling `current_rate` and
step index `i`, returns the unrounded `predicted_rate` (carried to the
next iteration) and the appended step record. -/
noncomputable def predictStep (model_name : String) (features : FeatureVector)
    (horizon : ℕ) (current_rate : ℝ) (i : ℕ) (d : Draw) : ℝ × PredStep :=
  let trend := stepTrend model_name features i d
  let predicted_rate := current_rate + trend + d.noise
  let confidence := base_confidence model_name * (1 - ((i : ℝ) - 1) / (horizon : ℝ) * 0.3)
  let uncertainty := 0.005 * (1 + (i : ℝ) / (horizon : ℝ))
  (predicted_rate,
    { offset := i
      predicted := roundTo predicted_rate 4
      confidence := roundTo (max 0.5 confidence) 3
      lower_bound := roundTo (predicted_rate - uncertainty) 4
      upper_bound := roundTo (predicted_rate + uncertainty) 4
      trend_up := predicted_rate > current_rate
      volatility := roundTo uncertainty 4 })

/-- The `for i in range(1, horizon+1)` loop of `predict`: `n` iterations
remain, the next one having step index `i` and rolling rate
`current_rate`; `draws i` supplies the random values of iteration `i`. -/
noncomputable def predictSteps (model_name : String) (features : FeatureVector)
    (horizon : ℕ) (draws : ℕ → Draw) : ℕ → ℝ → ℕ → List PredStep
  | 0, _, _ => []
  | n + 1, current_rate, i =>
    let r := predictStep model_name features horizon current_rate i (draws i)
    r.2 :: predictSteps model_name features horizon draws n r.1 (i + 1)

/-- `MLForecastingService.predict`. -/
noncomputable def predict (model_name : String) (features : FeatureVector)
    (horizon : ℕ) (draws : ℕ → Draw) : Except MLError (List PredStep) :=
  if model_name ∉ predictModelNames then .error (.unknownModel model_name)
  else .ok (predictSteps model_name features horizon draws horizon features.rate_lag_1 1)

/- ---------------------------------------------------------------------
   Performance Tracker (`_initialize_models`, `_simulate_trained_models`,
   `retrain_model`, `evaluate_model`)
--------------------------------------------------------------------- -/

/-- One entry of `self.model_performance`.  The metric values of the
tracker are exact decimal constants, modelled as rationals;
`last_trained` is the instant in hours (`datetime.utcnow()` = the `now`
argument threaded through the operations). -/
structure PerfRecord where
  accuracy : ℚ
  mse : ℚ
  mae : ℚ
  directional_accuracy : ℚ
  last_trained : ℤ
  training_samples : ℕ
  status : String
deriving DecidableEq

/-- The mutable state of `MLForecastingService`: the keys of
`self.models` (the fitted-estimator registry built by
`_initialize_models`) and the `self.model_performance` dictionary. -/
structure ServiceState where
  models : List String
  model_performance : List (String × PerfRecord)
deriving DecidableEq

/-- `MLForecastingService._simulate_trained_models`, with
`datetime.utcnow()` passed in as `now` (in hours). -/
def simulate_trained_models (now : ℤ) : List (String × PerfRecord) :=
  [("ensemble", ⟨0.847, 0.000123, 0.0089, 0.723, now - 6, 50000, "active"⟩),
   ("xgboost", ⟨0.821, 0.000156, 0.0102, 0.698, now - 6, 50000, "active"⟩),
   ("random_forest", ⟨0.798, 0.000189, 0.0115, 0.675, now - 6, 50000, "active"⟩),
   ("lstm", ⟨0.785, 0.000201, 0.0128, 0.662, now - 8, 50000, "active"⟩)]

/-- The service state after `__init__` / `_initialize_models`: the
estimator registry holds exactly `random_forest` and `xgboost` (in dict
insertion order), and the performance records cover four model ids. -/
def initState (now : ℤ) : ServiceState where
  models := ["random_forest", "xgboost"]
  model_performance := simulate_trained_models now

/-- `self.model_performance[k] = v` on a dictionary whose keys are unique:
replace the entry of key `k`. -/
def dictSet (d : List (String × PerfRecord)) (k : String) (v : PerfRecord) :
    List (String × PerfRecord) :=
  d.map (fun q => if q.1 = k then (k, v) else q)

/-- The value returned by `retrain_model`. -/
structure RetrainResult where
  status : String
  model : String
  new_accuracy : ℚ
  training_samples : ℕ
  training_time : ℚ
deriving DecidableEq

/-- `MLForecastingService.retrain_model`.  `improvement` is the
`random.uniform(-0.02, 0.05)` draw and `training_time` the
`random.uniform(300, 900)` draw; `now` is `datetime.utcnow()`.  The
`keyError` branch mirrors the `KeyError` Python would raise on a model
registered in `self.models` but missing from `self.model_performance`
(unreachable from `initState`). -/
def retrain_model {τ : Type} (st : ServiceState) (model_name : String)
    (training_data : List τ) (improvement training_time : ℚ) (now : ℤ) :
    Except MLError (RetrainResult × ServiceState) :=
  if model_name ∉ st.models then .error (.unknownModel model_name)
  else
    match st.model_performance.lookup model_name with
    | none => .error (.keyError model_name)
    | some old =>
      let samples := if training_data.isEmpty then 50000 else training_data.length
      let current_accuracy := old.accuracy
      let new_accuracy := max 0.7 (min 0.95 (current_accuracy + improvement))
      let updated : PerfRecord :=
        { old with
          last_trained := now
          training_samples := samples
          accuracy := roundTo new_accuracy 3 }
      .ok
        ({ status := "completed"
           model := model_name
           new_accuracy := new_accuracy
           training_samples := samples
           training_time := training_time },
         { st with model_performance := dictSet st.model_performance model_name updated })

/-- The value returned by `evaluate_model`: either the stored performance
dictionary (`self.model_performance.get(model_name, {})`, `none` playing
the role of `{}`) or the freshly computed metrics dictionary. -/
inductive EvalResult where
  | stored (record : Option PerfRecord)
  | metrics (mse mae directional_accuracy : ℝ) (test_samples : ℕ)

/-- Placeholder step used for the (unreachable) `[0]` indexing of an
empty prediction list; `predict` with horizon 1 always returns one step. -/
noncomputable def dummyStep : PredStep :=
  { offset := 0, predicted := 0, confidence := 0, lower_bound := 0
    upper_bound := 0, trend_up := false, volatility := 0 }

/-- The per-point loop of `evaluate_model`: for each test point builds
features from the singleton series `[data_point]`, predicts one step
ahead, and collects `pred['predicted']` and the point's rate.  `k` is the
index of the point, so `drawsSeq k` supplies the random draws consumed by
the `k`-th one-step `predict` call. -/
noncomputable def evalLoop (model_name : String) (drawsSeq : ℕ → Draw)
    (now : Timestamp) : List RatePoint → ℕ → Except MLError (List ℝ × List ℝ)
  | [], _ => .ok ([], [])
  | p :: rest, k =>
    match predict model_name (generate_features [p] none now) 1 (fun _ => drawsSeq k) with
    | .error e => .error e
    | .ok steps =>
      match evalLoop model_name drawsSeq now rest (k + 1) with
      | .error e => .error e
      | .ok (preds, acts) => .ok ((steps.headD dummyStep).predicted :: preds, p.rate :: acts)

/-- The directional-accuracy counting loop of `evaluate_model`: over
`i = 1 .. len-1`, counts positions where the predicted movement direction
matches the actual movement direction. -/
noncomputable def countDirectional (preds acts : List ℝ) : ℕ :=
  ((preds.tail.zip preds).zip (acts.tail.zip acts)).countP
    (fun q => decide ((q.1.2 < q.1.1) ↔ (q.2.2 < q.2.1)))

/-- `MLForecastingService.evaluate_model`.  The method performs no
assignment to `self`, so the state component of the result is the input
state unchanged. -/
noncomputable def evaluate_model (st : ServiceState) (model_name : String)
    (test_data : List RatePoint) (drawsSeq : ℕ → Draw) (now : Timestamp) :
    Except MLError (EvalResult × ServiceState) :=
  if test_data.isEmpty then
    .ok (.stored (st.model_performance.lookup model_name), st)
  else
    match evalLoop model_name drawsSeq now test_data 0 with
    | .error e => .error e
    | .ok (predictions, actuals) =>
      let mse := if actuals.length > 1 then
          listMean ((actuals.zip predictions).map (fun q => (q.1 - q.2) ^ 2))
        else 0.001
      let mae := if actuals.length > 1 then
          listMean ((actuals.zip predictions).map (fun q => |q.1 - q.2|))
        else 0.01
      let directional_correct := countDirectional predictions actuals
      let directional_accuracy := (directional_correct : ℝ) / ((max 1 (predictions.length - 1) : ℕ) : ℝ)
      .ok (.metrics (roundTo mse 6) (roundTo mae 4) (roundTo directional_accuracy 3)
             test_data.length, st)

/- ---------------------------------------------------------------------
   Helper lemmas
--------------------------------------------------------------------- -/

theorem listMean_nonneg {l : List ℝ} (h : ∀ x ∈ l, 0 ≤ x) : 0 ≤ listMean l :=
  div_nonneg (List.sum_nonneg h) (by positivity)

theorem mem_lastN {l : List ℝ} {n : ℕ} {x : ℝ} (h : x ∈ lastN l n) : x ∈ l :=
  List.drop_subset _ _ h

/- ---------------------------------------------------------------------
   Claim theorems
--------------------------------------------------------------------- -/

/-- Claim C6: for every historical series of length strictly less than 20
(including the empty series) and every optional sentiment input,
`generate_features` returns the default feature vector of
`_get_default_features`, independent of the series' contents. -/
theorem claim_C6_default_features (historical_data : List RatePoint)
    (sentiment_data : Option SentimentSummary) (now : Timestamp)
    (h : historical_data.length < 20) :
    generate_features historical_data sentiment_data now = get_default_features now := by
  unfold generate_features
  rw [if_pos]
  simp [h]

/-- Witness for C6 at the empty series. -/
theorem claim_C6_default_features_witness :
    generate_features [] none ⟨0, 0, 0, 1⟩ = get_default_features ⟨0, 0, 0, 1⟩ :=
  claim_C6_default_features [] none ⟨0, 0, 0, 1⟩ (by decide)

/-- Claim C7: for every model_id, `evaluate_model` on an empty test series
returns the stored performance record for that model
(`self.model_performance.get(model_name, {})`) and leaves the service
state — every model's record — completely unchanged. -/
theorem claim_C7_evaluate_empty (st : ServiceState) (model_name : String)
    (drawsSeq : ℕ → Draw) (now : Timestamp) :
    evaluate_model st model_name [] drawsSeq now =
      .ok (.stored (st.model_performance.lookup model_name), st) := by
  unfold evaluate_model
  rfl

/-- The value `100 - 100 / (1 + g / l)` of the main RSI branch lies in
`[0, 100)` whenever `g ≥ 0` and `l > 0`. -/
theorem rsi_formula_range {g l : ℝ} (hg : 0 ≤ g) (hl : 0 < l) :
    0 ≤ 100 - 100 / (1 + g / l) ∧ 100 - 100 / (1 + g / l) ≤ 100 := by
  have hrs : 0 ≤ g / l := div_nonneg hg hl.le
  have h1 : (0:ℝ) < 1 + g / l := by linarith
  constructor
  · have : 100 / (1 + g / l) ≤ 100 / 1 := by
      apply div_le_div_of_nonneg_left (by norm_num) (by norm_num) (by linarith)
    simp at this
    linarith
  · have : 0 < 100 / (1 + g / l) := by positivity
    linarith

/-- Claim C8: for every rate sequence (including constant-value ones),
`_calculate_rsi` with the default period 14 returns a value in `[0, 100]`,
and for every sequence of length < 15 it returns exactly 50.0. -/
theorem claim_C8_rsi_range (prices : List ℝ) :
    (0 ≤ calculate_rsi prices 14 ∧ calculate_rsi prices 14 ≤ 100) ∧
      (prices.length < 15 → calculate_rsi prices 14 = 50) := by
  unfold calculate_rsi
  split_ifs with h1
  · exact ⟨⟨by norm_num, by norm_num⟩, fun _ => by norm_num⟩
  refine ⟨?_, fun h => absurd h (by omega)⟩
  dsimp only
  split_ifs with h2
  · exact ⟨by norm_num, by norm_num⟩
  · have hg : 0 ≤ listMean
        (lastN ((listDiff prices).map (fun d => if d > 0 then d else 0)) 14) := by
      refine listMean_nonneg fun x hx => ?_
      obtain ⟨d, _, rfl⟩ := List.mem_map.mp (mem_lastN hx)
      split_ifs with hd
      · exact hd.le
      · exact le_refl 0
    have hl0 : 0 ≤ listMean
        (lastN ((listDiff prices).map (fun d => if d < 0 then -d else 0)) 14) := by
      refine listMean_nonneg fun x hx => ?_
      obtain ⟨d, _, rfl⟩ := List.mem_map.mp (mem_lastN hx)
      split_ifs with hd
      · linarith
      · exact le_refl 0
    have hl : 0 < listMean
        (lastN ((listDiff prices).map (fun d => if d < 0 then -d else 0)) 14) :=
      lt_of_le_of_ne hl0 (Ne.symm h2)
    exact rsi_formula_range hg hl

/-- Witness for C8 at the empty series. -/
theorem claim_C8_rsi_range_witness : calculate_rsi ([] : List ℝ) 14 = 50 :=
  (claim_C8_rsi_range []).2 (by decide)

/-- Claim C9: for every rate sequence, `_calculate_bollinger_position`
with the default period 20 returns a value in `[0, 1]`, and returns
exactly 0.5 whenever the sequence is shorter than 20 or the ±2·stddev
band has zero width; the degenerate branches avoid the division. -/
theorem claim_C9_bollinger_range (prices : List ℝ) :
    (0 ≤ calculate_bollinger_position prices 20 ∧
        calculate_bollinger_position prices 20 ≤ 1) ∧
      (prices.length < 20 ∨ bollingerStd prices 20 = 0 →
        calculate_bollinger_position prices 20 = 0.5) := by
  unfold calculate_bollinger_position
  split_ifs with h1
  · exact ⟨⟨by norm_num, by norm_num⟩, fun _ => by norm_num⟩
  dsimp only
  split_ifs with h2
  · exact ⟨⟨by norm_num, by norm_num⟩, fun _ => by norm_num⟩
  · refine ⟨⟨le_max_left 0 _, max_le (by norm_num) (min_le_left 1 _)⟩, ?_⟩
    rintro (h | h)
    · exact absurd h h1
    · exact absurd (by rw [h]; ring) h2

/-- Witness for C9 at the empty series. -/
theorem claim_C9_bollinger_range_witness :
    calculate_bollinger_position ([] : List ℝ) 20 = 0.5 :=
  (claim_C9_bollinger_range []).2 (Or.inl (by decide))

/- ---------------------------------------------------------------------
   Helper lemmas and witness inputs for the `predict` claims
--------------------------------------------------------------------- -/

/-- A fixed timestamp used to instantiate witnesses. -/
def t0 : Timestamp := ⟨0, 0, 0, 1⟩

/-- The all-zero draw (0 is inside every documented uniform range that is
symmetric, and used only where the bounds hypotheses allow it). -/
noncomputable def zeroDraw : Draw := ⟨0, 0, 0⟩

/-- The all-zero random stream, for witnesses. -/
noncomputable def zeroDraws : ℕ → Draw := fun _ => zeroDraw

theorem predict_ok (model_name : String) (hm : model_name ∈ predictModelNames)
    (features : FeatureVector) (horizon : ℕ) (draws : ℕ → Draw) :
    predict model_name features horizon draws
      = .ok (predictSteps model_name features horizon draws horizon
          features.rate_lag_1 1) := by
  unfold predict
  rw [if_neg (not_not_intro hm)]

theorem predictSteps_length (model_name : String) (features : FeatureVector)
    (horizon : ℕ) (draws : ℕ → Draw) :
    ∀ (n : ℕ) (cur : ℝ) (i : ℕ),
      (predictSteps model_name features horizon draws n cur i).length = n := by
  intro n
  induction n with
  | zero => intro cur i; rfl
  | succ k ih => intro cur i; simp [predictSteps, ih]

theorem predictStep_fst (m : String) (f : FeatureVector) (h : ℕ) (r : ℝ) (i : ℕ)
    (d : Draw) : (predictStep m f h r i d).1 = r + stepTrend m f i d + d.noise := rfl

theorem predictStep_predicted (m : String) (f : FeatureVector) (h : ℕ) (r : ℝ)
    (i : ℕ) (d : Draw) :
    (predictStep m f h r i d).2.predicted
      = roundTo (r + stepTrend m f i d + d.noise) 4 := rfl

theorem predictStep_confidence (m : String) (f : FeatureVector) (h : ℕ) (r : ℝ)
    (i : ℕ) (d : Draw) :
    (predictStep m f h r i d).2.confidence
      = roundTo (max 0.5 (base_confidence m * (1 - ((i:ℝ) - 1) / (h:ℝ) * 0.3))) 3 := rfl

theorem predictStep_lower (m : String) (f : FeatureVector) (h : ℕ) (r : ℝ)
    (i : ℕ) (d : Draw) :
    (predictStep m f h r i d).2.lower_bound
      = roundTo ((r + stepTrend m f i d + d.noise)
          - 0.005 * (1 + (i:ℝ) / (h:ℝ))) 4 := rfl

theorem predictStep_upper (m : String) (f : FeatureVector) (h : ℕ) (r : ℝ)
    (i : ℕ) (d : Draw) :
    (predictStep m f h r i d).2.upper_bound
      = roundTo ((r + stepTrend m f i d + d.noise)
          + 0.005 * (1 + (i:ℝ) / (h:ℝ))) 4 := rfl

theorem base_confidence_bounds (m : String) :
    0.7 ≤ base_confidence m ∧ base_confidence m ≤ 0.85 := by
  unfold base_confidence
  split_ifs <;> norm_num

theorem roundTo_half : roundTo (0.5 : ℝ) 3 = 0.5 :=
  roundTo_eq_self 0.5 3 500 (by norm_num)

theorem roundTo_eightFive : roundTo (0.85 : ℝ) 3 = 0.85 :=
  roundTo_eq_self 0.85 3 850 (by norm_num)

/-- The four per-step record inequalities of C3, for any step with index
`i ≥ 1` (the loop of `predict` only produces such indices). -/
theorem predictStep_inRange (m : String) (f : FeatureVector) (h : ℕ) (r : ℝ)
    (i : ℕ) (d : Draw) (hi : 1 ≤ i) :
    (predictStep m f h r i d).2.lower_bound ≤ (predictStep m f h r i d).2.predicted ∧
      (predictStep m f h r i d).2.predicted ≤ (predictStep m f h r i d).2.upper_bound ∧
      0.5 ≤ (predictStep m f h r i d).2.confidence ∧
      (predictStep m f h r i d).2.confidence ≤ 1 := by
  have hu : 0 ≤ 0.005 * (1 + (i:ℝ) / (h:ℝ)) := by positivity
  have hfac0 : 0 ≤ ((i:ℝ) - 1) / (h:ℝ) := by
    apply div_nonneg _ (by positivity)
    have : (1:ℝ) ≤ (i:ℝ) := by exact_mod_cast hi
    linarith
  have hbase := base_confidence_bounds m
  have hconf_le : base_confidence m * (1 - ((i:ℝ) - 1) / (h:ℝ) * 0.3) ≤ 0.85 := by
    have h1 : 1 - ((i:ℝ) - 1) / (h:ℝ) * 0.3 ≤ 1 := by linarith
    nlinarith [hbase.1, hbase.2]
  refine ⟨?_, ?_, ?_, ?_⟩
  · rw [predictStep_lower, predictStep_predicted]
    exact roundTo_mono 4 (by linarith)
  · rw [predictStep_predicted, predictStep_upper]
    exact roundTo_mono 4 (by linarith)
  · rw [predictStep_confidence]
    calc (0.5 : ℝ) = roundTo (0.5 : ℝ) 3 := roundTo_half.symm
      _ ≤ _ := roundTo_mono 3 (le_max_left _ _)
  · rw [predictStep_confidence]
    calc roundTo (max 0.5 (base_confidence m * (1 - ((i:ℝ) - 1) / (h:ℝ) * 0.3))) 3
        ≤ roundTo (0.85 : ℝ) 3 := roundTo_mono 3 (max_le (by norm_num) hconf_le)
      _ = 0.85 := roundTo_eightFive
      _ ≤ 1 := by norm_num

theorem predictSteps_forall_inRange (m : String) (f : FeatureVector) (h : ℕ)
    (draws : ℕ → Draw) :
    ∀ (n : ℕ) (cur : ℝ) (i : ℕ), 1 ≤ i →
      ∀ s ∈ predictSteps m f h draws n cur i,
        s.lower_bound ≤ s.predicted ∧ s.predicted ≤ s.upper_bound ∧
          0.5 ≤ s.confidence ∧ s.confidence ≤ 1 := by
  intro n
  induction n with
  | zero => intro cur i _ s hs; simp [predictSteps] at hs
  | succ k ih =>
    intro cur i hi s hs
    simp only [predictSteps, List.mem_cons] at hs
    rcases hs with rfl | hs
    · exact predictStep_inRange m f h cur i (draws i) hi
    · exact ih _ (i + 1) (by omega) s hs

/-- Claim C1 (amended): `predict` performs no horizon validation — for
every registered model and features and every horizon, including 0 and
169, it returns normally with exactly `horizon` steps; no error of any
kind is raised for an out-of-range horizon. -/
theorem claim_C1_no_horizon_check (model_name : String) (features : FeatureVector)
    (horizon : ℕ) (draws : ℕ → Draw) (hm : model_name ∈ predictModelNames) :
    ∃ steps, predict model_name features horizon draws = .ok steps ∧
      steps.length = horizon :=
  ⟨_, predict_ok model_name hm features horizon draws,
    predictSteps_length model_name features horizon draws horizon _ 1⟩

/-- Witness for the amended C1 at the out-of-contract horizon 169. -/
theorem claim_C1_no_horizon_check_witness :
    ∃ steps, predict "ensemble" (get_default_features t0) 169 zeroDraws = .ok steps ∧
      steps.length = 169 :=
  claim_C1_no_horizon_check "ensemble" (get_default_features t0) 169 zeroDraws
    (by decide)

/-- Counterexample to C1 as stated: at horizon 0 `predict` returns an ok
empty list rather than raising, and at horizon 169 it returns 169 steps
rather than raising. -/
theorem claim_C1_counterexample :
    predict "ensemble" (get_default_features t0) 0 zeroDraws = .ok [] ∧
      (predict "ensemble" (get_default_features t0) 169 zeroDraws).toOption.map
          List.length = some 169 := by
  constructor
  · rw [predict_ok "ensemble" (by decide) _ 0 zeroDraws]
    rfl
  · rw [predict_ok "ensemble" (by decide) _ 169 zeroDraws]
    exact congrArg some (predictSteps_length _ _ _ _ 169 _ 1)

/-- Claim C3: for every registered model, every features mapping and
every horizon in `[1, 168]`, `predict` returns exactly `horizon` steps,
each with `lower_bound ≤ predicted ≤ upper_bound` and
`confidence ∈ [0.5, 1]` — for every draw of the random terms. -/
theorem claim_C3_predict_steps_valid (model_name : String)
    (features : FeatureVector) (horizon : ℕ) (draws : ℕ → Draw)
    (hm : model_name ∈ predictModelNames) (hlo : 1 ≤ horizon)
    (hhi : horizon ≤ 168) :
    ∃ steps, predict model_name features horizon draws = .ok steps ∧
      steps.length = horizon ∧
      ∀ s ∈ steps, s.lower_bound ≤ s.predicted ∧ s.predicted ≤ s.upper_bound ∧
        0.5 ≤ s.confidence ∧ s.confidence ≤ 1 :=
  ⟨_, predict_ok model_name hm features horizon draws,
    predictSteps_length model_name features horizon draws horizon _ 1,
    predictSteps_forall_inRange model_name features horizon draws horizon _ 1
      le_rfl⟩

/-- Witness for C3 with the ensemble model at horizon 24. -/
theorem claim_C3_predict_steps_valid_witness :
    ∃ steps, predict "ensemble" (get_default_features t0) 24 zeroDraws = .ok steps ∧
      steps.length = 24 ∧
      ∀ s ∈ steps, s.lower_bound ≤ s.predicted ∧ s.predicted ≤ s.upper_bound ∧
        0.5 ≤ s.confidence ∧ s.confidence ≤ 1 :=
  claim_C3_predict_steps_valid "ensemble" (get_default_features t0) 24 zeroDraws
    (by decide) (by decide) (by decide)

/-- The confidence of the step with index `j` is at most that of the step
with index `i`, for `1 ≤ i ≤ j` (linear decay composed with the 0.5 clamp
and the 3-digit rounding, all monotone). -/
theorem stepConf_antitone (m : String) (h : ℕ) {i j : ℕ} (hi : 1 ≤ i) (hij : i ≤ j) :
    roundTo (max 0.5 (base_confidence m * (1 - ((j:ℝ) - 1) / (h:ℝ) * 0.3))) 3
      ≤ roundTo (max 0.5 (base_confidence m * (1 - ((i:ℝ) - 1) / (h:ℝ) * 0.3))) 3 := by
  apply roundTo_mono
  apply max_le_max le_rfl
  have hbase := (base_confidence_bounds m).1
  have hdiv : ((i:ℝ) - 1) / (h:ℝ) ≤ ((j:ℝ) - 1) / (h:ℝ) := by
    rw [div_eq_mul_inv, div_eq_mul_inv]
    have hij' : (i:ℝ) ≤ (j:ℝ) := by exact_mod_cast hij
    exact mul_le_mul_of_nonneg_right (by linarith) (by positivity)
  have hfac : 1 - ((j:ℝ) - 1) / (h:ℝ) * 0.3 ≤ 1 - ((i:ℝ) - 1) / (h:ℝ) * 0.3 := by
    linarith
  exact mul_le_mul_of_nonneg_left hfac (by linarith)

theorem predictSteps_head_confidence (m : String) (f : FeatureVector) (h : ℕ)
    (draws : ℕ → Draw) :
    ∀ (n : ℕ) (cur : ℝ) (i : ℕ) (b : PredStep),
      (predictSteps m f h draws n cur i).head? = some b →
      b.confidence
        = roundTo (max 0.5 (base_confidence m * (1 - ((i:ℝ) - 1) / (h:ℝ) * 0.3))) 3 := by
  intro n cur i b hb
  cases n with
  | zero => simp [predictSteps] at hb
  | succ k =>
    simp only [predictSteps, List.head?_cons, Option.some.injEq] at hb
    rw [← hb, predictStep_confidence]

/-- Along the generated step list, each adjacent pair of confidences is
non-increasing. -/
theorem predictSteps_conf_chain (m : String) (f : FeatureVector) (h : ℕ)
    (draws : ℕ → Draw) :
    ∀ (n : ℕ) (cur : ℝ) (i : ℕ), 1 ≤ i →
      List.Chain' (fun a b => b.confidence ≤ a.confidence)
        (predictSteps m f h draws n cur i) := by
  intro n
  induction n with
  | zero => intro cur i _; exact List.chain'_nil
  | succ k ih =>
    intro cur i hi
    simp only [predictSteps]
    apply List.chain'_cons'.mpr
    refine ⟨?_, ih _ (i + 1) (by omega)⟩
    intro b hb
    rw [predictSteps_head_confidence m f h draws k _ (i + 1) b hb,
      predictStep_confidence]
    exact stepConf_antitone m h hi (Nat.le_succ i)

/-- Claim C4: for every registered model, features, horizon in `[1,168]`
and every draw of the random terms, the confidences of the returned step
sequence are non-increasing from the first step to the last.  (Proved for
every horizon and every — not only bounded — draws.) -/
theorem claim_C4_confidence_nonincreasing (model_name : String)
    (features : FeatureVector) (horizon : ℕ) (draws : ℕ → Draw)
    (steps : List PredStep)
    (h : predict model_name features horizon draws = .ok steps) :
    List.Chain' (fun a b => b.confidence ≤ a.confidence) steps := by
  unfold predict at h
  split_ifs at h with hmem
  · cases h
    exact predictSteps_conf_chain model_name features horizon draws horizon _ 1 le_rfl

/-- Witness for C4 with the ensemble model at horizon 3. -/
theorem claim_C4_confidence_nonincreasing_witness :
    List.Chain' (fun a b => b.confidence ≤ a.confidence)
      (predictSteps "ensemble" (get_default_features t0) 3 zeroDraws 3
        (get_default_features t0).rate_lag_1 1) :=
  claim_C4_confidence_nonincreasing "ensemble" (get_default_features t0) 3
    zeroDraws _ (predict_ok "ensemble" (by decide) (get_default_features t0) 3
      zeroDraws)

/- ---------------------------------------------------------------------
   Claim C2: retrain_model
--------------------------------------------------------------------- -/

/-- Counterexample to C2 as stated: `ensemble` is one of the registered
model variants (it has an active performance record and is accepted by
`predict`), yet `retrain_model` rejects it with the UnknownModel error,
because the `self.models` registry built by `_initialize_models` holds
only `random_forest` and `xgboost`. -/
theorem claim_C2_counterexample :
    retrain_model (initState 0) "ensemble" ([] : List ℕ) 0 300 0
      = .error (.unknownModel "ensemble") := rfl

/-- Claim C2 (amended): for a model id in the `self.models` registry —
exactly `random_forest` and `xgboost` in the initial state — and every
training data, `retrain_model` succeeds, updating that model's
`last_trained` and `training_samples` and storing an accuracy in
`[0.70, 0.95]`; for every other id (including the variants `ensemble` and
`lstm`) it raises UnknownModel without touching any record. -/
theorem claim_C2_retrain {τ : Type} (st : ServiceState) (model_name : String)
    (training_data : List τ) (improvement training_time : ℚ) (now : ℤ) :
    (∀ old, model_name ∈ st.models →
      st.model_performance.lookup model_name = some old →
      retrain_model st model_name training_data improvement training_time now
        = .ok
          ({ status := "completed"
             model := model_name
             new_accuracy := max 0.7 (min 0.95 (old.accuracy + improvement))
             training_samples :=
               if training_data.isEmpty then 50000 else training_data.length
             training_time := training_time },
           { st with
             model_performance := dictSet st.model_performance model_name
               { old with
                 last_trained := now
                 training_samples :=
                   if training_data.isEmpty then 50000 else training_data.length
                 accuracy :=
                   roundTo (max 0.7 (min 0.95 (old.accuracy + improvement))) 3 } }) ∧
        0.7 ≤ roundTo (max 0.7 (min 0.95 (old.accuracy + improvement))) 3 ∧
        roundTo (max 0.7 (min 0.95 (old.accuracy + improvement))) 3 ≤ 0.95) ∧
      (model_name ∉ st.models →
        retrain_model st model_name training_data improvement training_time now
          = .error (.unknownModel model_name)) := by
  constructor
  · intro old hmem hlook
    refine ⟨?_, ?_, ?_⟩
    · unfold retrain_model
      rw [if_neg (not_not_intro hmem), hlook]
    · calc (0.7 : ℚ) = roundTo (0.7 : ℚ) 3 :=
          (roundTo_eq_self 0.7 3 700 (by norm_num)).symm
        _ ≤ _ := roundTo_mono 3 (le_max_left _ _)
    · calc roundTo (max 0.7 (min 0.95 (old.accuracy + improvement))) 3
          ≤ roundTo (0.95 : ℚ) 3 :=
            roundTo_mono 3 (max_le (by norm_num) (min_le_left _ _))
        _ = 0.95 := roundTo_eq_self 0.95 3 950 (by norm_num)
  · intro hmem
    unfold retrain_model
    rw [if_pos hmem]

/-- Witness for the amended C2: a successful retrain of `random_forest`
from the initial state, and the UnknownModel error for `ensemble`. -/
theorem claim_C2_retrain_witness :
    (∃ res st2,
      retrain_model (initState 0) "random_forest" ([3] : List ℕ) (1/100) 300 5
        = .ok (res, st2)) ∧
      retrain_model (initState 0) "ensemble" ([] : List ℕ) 0 300 0
        = .error (.unknownModel "ensemble") :=
  ⟨⟨_, _,
    (((claim_C2_retrain (initState 0) "random_forest" ([3] : List ℕ) (1/100) 300
        5).1 ⟨0.798, 0.000189, 0.0115, 0.675, -6, 50000, "active"⟩ (by decide)
        (by norm_num [initState, simulate_trained_models, List.lookup]; rfl)).1)⟩,
   (claim_C2_retrain (initState 0) "ensemble" ([] : List ℕ) 0 300 0).2
     (by decide)⟩

/- ---------------------------------------------------------------------
   Claim C5: the ensemble scenario at horizon 3
--------------------------------------------------------------------- -/

theorem stepTrend_ensemble (f : FeatureVector) (i : ℕ) (d : Draw) :
    stepTrend "ensemble" f i d
      = 0.0001 * (i:ℝ) + 0.001 * Real.sin (2 * Real.pi * (i:ℝ) / 24) + d.d1 := rfl

theorem predictStep_predicted_fst (m : String) (f : FeatureVector) (h : ℕ)
    (r : ℝ) (i : ℕ) (d : Draw) :
    (predictStep m f h r i d).2.predicted
      = roundTo ((predictStep m f h r i d).1) 4 := rfl

/-- For step indices 1..3 the 24-step seasonal sine term is nonnegative
and at most `0.2625 · i` (using `sin x ≤ x` and `π < 3.15`). -/
theorem sin_seasonal_bound (i : ℕ) (h1 : 1 ≤ i) (h3 : i ≤ 3) :
    0 ≤ Real.sin (2 * Real.pi * (i:ℝ) / 24) ∧
      Real.sin (2 * Real.pi * (i:ℝ) / 24) ≤ 0.2625 * (i:ℝ) := by
  have hi1 : (1:ℝ) ≤ (i:ℝ) := by exact_mod_cast h1
  have hi3 : (i:ℝ) ≤ 3 := by exact_mod_cast h3
  have hπ := Real.pi_pos
  have hπ2 := Real.pi_lt_d2
  have hpos : (0:ℝ) < 2 * Real.pi * (i:ℝ) / 24 := by
    apply div_pos _ (by norm_num)
    nlinarith
  have hlep : 2 * Real.pi * (i:ℝ) / 24 ≤ Real.pi := by
    rw [div_le_iff₀ (by norm_num)]
    nlinarith
  refine ⟨Real.sin_nonneg_of_nonneg_of_le_pi hpos.le hlep, ?_⟩
  calc Real.sin (2 * Real.pi * (i:ℝ) / 24) ≤ 2 * Real.pi * (i:ℝ) / 24 :=
        (Real.sin_lt hpos).le
    _ ≤ 0.2625 * (i:ℝ) := by
        rw [div_le_iff₀ (by norm_num)]
        nlinarith

/-- One ensemble step moves the rolling rate by at most
`0.0025 + 0.0003625·i` when the momentum and noise draws are within their
documented uniform bounds, for step indices 1..3. -/
theorem ensemble_step_drift (f : FeatureVector) (h : ℕ) (r : ℝ) (i : ℕ) (d : Draw)
    (hd1 : |d.d1| ≤ 0.0005) (hn : |d.noise| ≤ 0.002) (h1 : 1 ≤ i) (h3 : i ≤ 3) :
    |(predictStep "ensemble" f h r i d).1 - r| ≤ 0.0025 + 0.0003625 * (i:ℝ) := by
  rw [predictStep_fst, stepTrend_ensemble]
  obtain ⟨hs0, hsle⟩ := sin_seasonal_bound i h1 h3
  obtain ⟨hd1a, hd1b⟩ := abs_le.mp hd1
  obtain ⟨hna, hnb⟩ := abs_le.mp hn
  have hi1 : (1:ℝ) ≤ (i:ℝ) := by exact_mod_cast h1
  have hi3 : (i:ℝ) ≤ 3 := by exact_mod_cast h3
  rw [abs_le]
  constructor <;> nlinarith

/-- Claim C5: with `rate_lag_1 = 1.0545`, model `ensemble` and horizon 3,
for every draw of the bounded random terms (momentum within ±0.0005 and
noise within ±0.002 per step), `predict` returns 3 steps whose predicted
rates all lie within ±0.01 of 1.0545, with first-step confidence exactly
0.85 and each later confidence at most the previous one. -/
theorem claim_C5_ensemble_scenario (features : FeatureVector) (draws : ℕ → Draw)
    (hf : features.rate_lag_1 = 1.0545)
    (hd1 : ∀ i, |(draws i).d1| ≤ 0.0005)
    (hn : ∀ i, |(draws i).noise| ≤ 0.002) :
    ∃ steps, predict "ensemble" features 3 draws = .ok steps ∧
      steps.length = 3 ∧
      (∀ s ∈ steps, |s.predicted - 1.0545| ≤ 0.01) ∧
      steps.head?.map (fun s => s.confidence) = some 0.85 ∧
      List.Chain' (fun a b => b.confidence ≤ a.confidence) steps := by
  refine ⟨_, predict_ok "ensemble" (by decide) features 3 draws,
    predictSteps_length _ _ _ _ 3 _ 1, ?_, ?_,
    predictSteps_conf_chain _ _ _ _ 3 _ 1 le_rfl⟩
  · -- every predicted rate within ±0.01 of the anchor
    rw [hf]
    have e3 : predictSteps "ensemble" features 3 draws 3 (1.0545 : ℝ) 1
        = [(predictStep "ensemble" features 3 (1.0545 : ℝ) 1 (draws 1)).2,
           (predictStep "ensemble" features 3
             (predictStep "ensemble" features 3 (1.0545 : ℝ) 1 (draws 1)).1 2
             (draws 2)).2,
           (predictStep "ensemble" features 3
             (predictStep "ensemble" features 3
               (predictStep "ensemble" features 3 (1.0545 : ℝ) 1 (draws 1)).1 2
               (draws 2)).1 3 (draws 3)).2] := rfl
    set p1 := (predictStep "ensemble" features 3 (1.0545 : ℝ) 1 (draws 1)).1 with hp1
    set p2 := (predictStep "ensemble" features 3 p1 2 (draws 2)).1 with hp2
    set p3 := (predictStep "ensemble" features 3 p2 3 (draws 3)).1 with hp3
    have b1 : |p1 - 1.0545| ≤ 0.0025 + 0.0003625 * ((1:ℕ):ℝ) :=
      ensemble_step_drift features 3 1.0545 1 (draws 1) (hd1 1) (hn 1)
        le_rfl (by norm_num)
    have b2 : |p2 - p1| ≤ 0.0025 + 0.0003625 * ((2:ℕ):ℝ) :=
      ensemble_step_drift features 3 p1 2 (draws 2) (hd1 2) (hn 2)
        (by norm_num) (by norm_num)
    have b3 : |p3 - p2| ≤ 0.0025 + 0.0003625 * ((3:ℕ):ℝ) :=
      ensemble_step_drift features 3 p2 3 (draws 3) (hd1 3) (hn 3)
        (by norm_num) le_rfl
    push_cast at b1 b2 b3
    have r1 := abs_roundTo_sub p1 4
    have r2 := abs_roundTo_sub p2 4
    have r3 := abs_roundTo_sub p3 4
    norm_num at r1 r2 r3
    intro s hs
    rw [e3] at hs
    simp only [List.mem_cons, List.not_mem_nil, or_false] at hs
    rcases hs with rfl | rfl | rfl
    · rw [predictStep_predicted_fst, ← hp1]
      have t1 : |roundTo p1 4 - 1.0545| ≤ |roundTo p1 4 - p1| + |p1 - 1.0545| :=
        abs_sub_le _ _ _
      linarith
    · rw [predictStep_predicted_fst, ← hp2]
      have t1 : |roundTo p2 4 - 1.0545| ≤ |roundTo p2 4 - p2| + |p2 - 1.0545| :=
        abs_sub_le _ _ _
      have t2 : |p2 - 1.0545| ≤ |p2 - p1| + |p1 - 1.0545| := abs_sub_le _ _ _
      linarith
    · rw [predictStep_predicted_fst, ← hp3]
      have t1 : |roundTo p3 4 - 1.0545| ≤ |roundTo p3 4 - p3| + |p3 - 1.0545| :=
        abs_sub_le _ _ _
      have t2 : |p3 - 1.0545| ≤ |p3 - p2| + |p2 - 1.0545| := abs_sub_le _ _ _
      have t3 : |p2 - 1.0545| ≤ |p2 - p1| + |p1 - 1.0545| := abs_sub_le _ _ _
      linarith
  · -- first-step confidence is exactly 0.85
    have hhead : (predictSteps "ensemble" features 3 draws 3 features.rate_lag_1
        1).head?
        = some (predictStep "ensemble" features 3 features.rate_lag_1 1
            (draws 1)).2 := rfl
    rw [hhead]
    simp only [Option.map_some']
    rw [predictStep_confidence]
    have hb : base_confidence "ensemble" = 0.85 := rfl
    rw [hb]
    have hmax : max (0.5:ℝ) (0.85 * (1 - (((1:ℕ):ℝ) - 1) / ((3:ℕ):ℝ) * 0.3))
        = 0.85 := by norm_num
    rw [hmax, roundTo_eightFive]

/-- Witness for C5 at the default feature vector and the zero draws. -/
theorem claim_C5_ensemble_scenario_witness :
    ∃ steps, predict "ensemble" (get_default_features t0) 3 zeroDraws = .ok steps ∧
      steps.length = 3 ∧
      (∀ s ∈ steps, |s.predicted - 1.0545| ≤ 0.01) ∧
      steps.head?.map (fun s => s.confidence) = some 0.85 ∧
      List.Chain' (fun a b => b.confidence ≤ a.confidence) steps :=
  claim_C5_ensemble_scenario (get_default_features t0) zeroDraws rfl
    (fun _ => by simp [zeroDraws, zeroDraw]; norm_num)
    (fun _ => by simp [zeroDraws, zeroDraw]; norm_num)

/- ---------------------------------------------------------------------
   Claim C10: evaluate_model ignores the test series' rate values
--------------------------------------------------------------------- -/

theorem exceptMap_error {ε α β : Type} (f : α → β) (e : ε) :
    (Except.error e : Except ε α).map f = .error e := rfl

theorem exceptMap_ok {ε α β : Type} (f : α → β) (a : α) :
    (Except.ok a : Except ε α).map f = .ok (f a) := rfl

/-- Any series shorter than 20 points yields the default feature vector
(the early-return branch of `generate_features`). -/
theorem generate_features_short (historical_data : List RatePoint)
    (sentiment_data : Option SentimentSummary) (now : Timestamp)
    (h : historical_data.length < 20) :
    generate_features historical_data sentiment_data now
      = get_default_features now := by
  unfold generate_features
  rw [if_pos]
  simp [h]

/-- The predicted-value sequence collected by the evaluation loop depends
only on the length of the test series (each per-point feature vector is
built from a singleton series, hence is the default vector). -/
theorem evalLoop_fst_eq (model_name : String) (drawsSeq : ℕ → Draw)
    (now : Timestamp) :
    ∀ (s1 s2 : List RatePoint) (k : ℕ), s1.length = s2.length →
      (evalLoop model_name drawsSeq now s1 k).map Prod.fst
        = (evalLoop model_name drawsSeq now s2 k).map Prod.fst := by
  intro s1
  induction s1 with
  | nil =>
    intro s2 k hlen
    cases s2 with
    | nil => rfl
    | cons q qs => simp at hlen
  | cons p ps ih =>
    intro s2 k hlen
    cases s2 with
    | nil => simp at hlen
    | cons q qs =>
      have hlen2 : ps.length = qs.length := by simpa using hlen
      simp only [evalLoop]
      rw [generate_features_short [p] none now (by simp),
        generate_features_short [q] none now (by simp)]
      have hih := ih qs (k + 1) hlen2
      cases hpred : predict model_name (get_default_features now) 1
          (fun _ => drawsSeq k) with
      | error e => rfl
      | ok steps =>
        dsimp only
        cases h1 : evalLoop model_name drawsSeq now ps (k + 1) with
        | error e1 =>
          cases h2 : evalLoop model_name drawsSeq now qs (k + 1) with
          | error e2 =>
            rw [h1, h2, exceptMap_error, exceptMap_error] at hih
            cases hih
            rfl
          | ok r2 =>
            rw [h1, h2, exceptMap_error, exceptMap_ok] at hih
            cases hih
        | ok r1 =>
          cases h2 : evalLoop model_name drawsSeq now qs (k + 1) with
          | error e2 =>
            rw [h1, h2, exceptMap_ok, exceptMap_error] at hih
            cases hih
          | ok r2 =>
            rw [h1, h2, exceptMap_ok, exceptMap_ok] at hih
            obtain ⟨preds1, acts1⟩ := r1
            obtain ⟨preds2, acts2⟩ := r2
            simp only [Except.ok.injEq] at hih
            dsimp only
            rw [exceptMap_ok, exceptMap_ok]
            simp only [Except.ok.injEq]
            simpa using hih

/-- Claim C10: inside `evaluate_model` every per-point feature vector is
built from a single data point, hence is the default vector anchored at
`rate_lag_1 = 1.0545`; consequently two test series of equal length,
evaluated with the same random draws, produce identical predicted-value
sequences regardless of their rate values. -/
theorem claim_C10_eval_rate_independent (model_name : String)
    (drawsSeq : ℕ → Draw) (now : Timestamp) (p : RatePoint)
    (sent : Option SentimentSummary) (s1 s2 : List RatePoint)
    (hlen : s1.length = s2.length) :
    generate_features [p] sent now = get_default_features now ∧
      (get_default_features now).rate_lag_1 = 1.0545 ∧
      (evalLoop model_name drawsSeq now s1 0).map Prod.fst
        = (evalLoop model_name drawsSeq now s2 0).map Prod.fst :=
  ⟨generate_features_short [p] sent now (by simp), rfl,
    evalLoop_fst_eq model_name drawsSeq now s1 s2 0 hlen⟩

/-- Witness for C10: two one-point series with different rates. -/
theorem claim_C10_eval_rate_independent_witness :
    generate_features [⟨t0, 1, none⟩] none t0 = get_default_features t0 ∧
      (get_default_features t0).rate_lag_1 = 1.0545 ∧
      (evalLoop "ensemble" zeroDraws t0 [⟨t0, 1, none⟩] 0).map Prod.fst
        = (evalLoop "ensemble" zeroDraws t0 [⟨t0, 2, none⟩] 0).map Prod.fst :=
  claim_C10_eval_rate_independent "ensemble" zeroDraws t0 ⟨t0, 1, none⟩ none
    [⟨t0, 1, none⟩] [⟨t0, 2, none⟩] rfl

end MLService
